import Mathlib

/-!
# Session engine of `useProvideAuth` (src/src/useAuth.js)

A shallow embedding of the React hook `useProvideAuth`.  The five `useState`
cells, the `authToken` cookie and the pending `setTimeout` registrations are
gathered into one record that every operation transforms.  The collaborators
the hook reaches through ambient names are inputs of the model:

* `jwtDecode` (library `jwt-decode`): a function that yields the payload of a
  token or throws;
* `fetch` + `response.json()`: the outcome of one request is an argument of the
  operation that issues it;
* `Date.now()`: the value read by `scheduleTokenRefresh` is an argument;
* `promptForMFA`: a free identifier of the module (neither imported nor
  declared there), so whether it is bound, and what a call does, belongs to the
  host.

A JavaScript exception is the `thrown` component of an `Outcome`; state
written before the throw is kept, as in the source.
-/

namespace UseAuth

/-- Session token: an opaque string. -/
abbrev Token := String

/-- Identity payload carried in the `user` field of a token. -/
abbrev UserIdentity := String

/-- An element of a JSON array found in the `roles` field: a string, or a
value of another kind, which is never equal to a string. -/
inductive RoleItem where
  | str (s : String)
  | nonString
  deriving DecidableEq, Repr

/-- A truthy JavaScript value as the `roles` field of a payload may hold it,
and as the `roles` cell then stores it: an array, a string, or a value of
another kind (number, `true`, object), which has no `includes` method. -/
inductive RolesValue where
  | array (items : List RoleItem)
  | text (s : String)
  | other
  deriving DecidableEq, Repr

/-- Payload fields of a decoded token that the hook reads (`decoded.user`,
`decoded.roles`, `exp`).  For `user` and `exp`, a field that is absent (or
`null`) in the payload is `none`; `roles` is `none` when the field is absent,
`null`, `0` or `false`; `exp` is in seconds. -/
structure Claims where
  user : Option UserIdentity
  roles : Option RolesValue
  exp : Option Int
  deriving DecidableEq, Repr

/-- One pending `setTimeout(refreshToken, delay)` registration; the action is
always `refreshToken`, the delay is the number handed to `setTimeout`, in
milliseconds (what a host does with a delay beyond its own range is not part
of the hook). -/
structure Timer where
  delay : Int
  deriving DecidableEq, Repr

/-- Everything the hook can read or write: the `useState` cells
(`isAuthenticated`, `user`, `roles`, `loading`, `error`), the `authToken`
cookie, the timers registered and not yet fired, and the number of calls that
entered the MFA hook. -/
structure Session where
  isAuthenticated : Bool
  user : Option UserIdentity
  roles : RolesValue
  loading : Bool
  error : Option String
  cookie : Option Token
  timers : List Timer
  mfaPrompts : Nat
  deriving DecidableEq, Repr

/-- Result of running a block of the hook: the state it leaves and the message
of the exception leaving the block, if any. -/
abbrev Outcome := Session × Option String

/-- Body of a backend answer as `response.json()` delivers it: the promise
rejects, or the body is an object whose `token` and (truthiness of)
`requiresMFA` are read.  A body without a usable `token` is any token that
`jwtDecode` rejects, since the source hands the field straight to it. -/
inductive JsonBody where
  | malformed (msg : String)
  | parsed (token : Token) (requiresMFA : Bool)
  deriving DecidableEq, Repr

/-- Outcome of one `fetch`: the promise rejects (transport failure), or a
response arrives with its `ok` flag (status 2xx) and body. -/
inductive FetchResult where
  | rejected (msg : String)
  | response (ok : Bool) (body : JsonBody)
  deriving DecidableEq, Repr

/-- Ambient collaborators.  `promptForMFA = none` is the module as written: the
identifier has no binding, and evaluating the call raises a `ReferenceError`.
`some r` is a host that binds it, `r` being what a call does. -/
structure Env where
  jwtDecode : Token → Except String Claims
  promptForMFA : Option (Except String Unit)

/-- State of the hook at its first render (the `useState` initial values),
with whatever the cookie jar holds. -/
def initialSession (cookie : Option Token) : Session :=
  { isAuthenticated := false, user := none, roles := .array [], loading := true,
    error := none, cookie := cookie, timers := [], mfaPrompts := 0 }

/-- Modelled from the spec: `getCookie` of the absent module `./utils`, the
`get` of the SessionStore (the persisted token, or none). -/
def getCookie (s : Session) : Option Token := s.cookie

/-- Modelled from the spec: `setCookie` of the absent module `./utils`, the
`set` of the SessionStore (persists the token, overwriting any prior value; the
retention period is a hint and is not modelled). -/
def setCookie (token : Token) (s : Session) : Session :=
  { s with cookie := some token }

/-- Modelled from the spec: `deleteCookie` of the absent module `./utils`, the
`delete` of the SessionStore (removes the token, no-op if absent). -/
def deleteCookie (s : Session) : Session :=
  { s with cookie := none }

/-- The expression `decoded.roles || []` (lines 19 and 61): a falsy field,
the empty string included, gives the empty array; a truthy one is kept as it
is, whatever its kind. -/
def rolesOrEmpty : Option RolesValue → RolesValue
  | none => .array []
  | some (.text t) => if t = "" then .array [] else .text t
  | some v => v

/-- Source `logout` (lines 66-71). -/
def logout (s : Session) : Session :=
  deleteCookie { s with isAuthenticated := false, user := none, roles := .array [] }

/-- Whether `needle` occurs as a contiguous run in a list of characters. -/
def occursIn (needle : List Char) : List Char → Bool
  | [] => needle.isEmpty
  | c :: rest => needle.isPrefixOf (c :: rest) || occursIn needle rest

/-- The method `String.prototype.includes`: `text.includes(needle)`. -/
def stringIncludes (text needle : String) : Bool :=
  occursIn needle.toList text.toList

/-- Source `checkPermission` (lines 73-76): `roles.includes(requiredRole)`,
on whatever the `roles` cell holds.  On an array it is the membership test,
on a string the substring test, and on any other value `roles.includes` is
not a function and the call throws a `TypeError`. -/
def checkPermission (s : Session) (requiredRole : String) : Except String Bool :=
  match s.roles with
  | .array items => .ok (items.contains (.str requiredRole))
  | .text t => .ok (stringIncludes t requiredRole)
  | .other => .error "roles.includes is not a function"

/-- Source `scheduleTokenRefresh` (lines 78-86).  When the payload has no
`exp`, `expiresIn` is `NaN`, the test `expiresIn > 0` is false and the
else-branch runs. -/
def scheduleTokenRefresh (env : Env) (now : Int) (currentToken : Token)
    (s : Session) : Outcome :=
  match env.jwtDecode currentToken with
  | .error msg => (s, some msg)
  | .ok decoded =>
    match decoded.exp with
    | none => (logout s, none)
    | some exp =>
      let expiresIn := exp * 1000 - now - 60000
      if expiresIn > 0 then
        ({ s with timers := s.timers ++ [{ delay := expiresIn }] }, none)
      else
        (logout s, none)

/-- Source `completeLogin` (lines 57-64). -/
def completeLogin (env : Env) (now : Int) (token : Token) (s : Session) : Outcome :=
  match env.jwtDecode token with
  | .error msg => (s, some msg)
  | .ok decoded =>
    let s1 := { s with isAuthenticated := true }
    let s2 := { s1 with user := decoded.user }
    let s3 := { s2 with roles := rolesOrEmpty decoded.roles }
    let s4 := setCookie token s3
    scheduleTokenRefresh env now token s4

/-- Evaluation of the statement `promptForMFA();` (line 44).  The message of
the `ReferenceError` for an unbound identifier is the one V8 produces. -/
def promptForMFA (env : Env) (s : Session) : Outcome :=
  match env.promptForMFA with
  | none => (s, some "promptForMFA is not defined")
  | some (.error msg) => ({ s with mfaPrompts := s.mfaPrompts + 1 }, some msg)
  | some (.ok _) => ({ s with mfaPrompts := s.mfaPrompts + 1 }, none)

/-- A `try { body } catch (error) { handler }` block. -/
def tryCatch (body : Session → Outcome) (handler : String → Session → Outcome)
    (s : Session) : Outcome :=
  match body s with
  | (s1, none) => (s1, none)
  | (s1, some msg) => handler msg s1

/-- The `try` block of `login` (lines 32-47), given the outcome of the request. -/
def loginBody (env : Env) (now : Int) (r : FetchResult) (s : Session) : Outcome :=
  match r with
  | .rejected msg => (s, some msg)
  | .response ok body =>
    if !ok then (s, some "Login failed")
    else
      match body with
      | .malformed msg => (s, some msg)
      | .parsed token requiresMFA =>
        if requiresMFA then promptForMFA env s
        else completeLogin env now token s

/-- The `catch` block of `login` (lines 48-51). -/
def loginCatch (msg : String) (s : Session) : Outcome :=
  ({ s with error := some msg, isAuthenticated := false, user := none }, none)

/-- Source `login` (lines 29-55): `setLoading(true)`, the guarded request, and
the `finally` that clears `loading` whatever happened. -/
def login (env : Env) (now : Int) (r : FetchResult) (s : Session) : Outcome :=
  let s0 := { s with loading := true }
  let o := tryCatch (loginBody env now r) loginCatch s0
  ({ o.1 with loading := false }, o.2)

/-- The `try` block of `refreshToken` (lines 90-99). -/
def refreshBody (env : Env) (now : Int) (r : FetchResult) (s : Session) : Outcome :=
  match r with
  | .rejected msg => (s, some msg)
  | .response ok body =>
    if !ok then (s, some "Token refresh failed")
    else
      match body with
      | .malformed msg => (s, some msg)
      | .parsed token _ => completeLogin env now token s

/-- Source `refreshToken` (lines 88-104). -/
def refreshToken (env : Env) (now : Int) (r : FetchResult) (s : Session) : Outcome :=
  tryCatch (refreshBody env now r) (fun _ s1 => (logout s1, none)) s

/-- A pending timer comes due: the registration at position `i` leaves the
pending list and its action `refreshToken` runs.  Nothing happens when no
timer is registered at `i`. -/
def fireTimer (env : Env) (i : Nat) (now : Int) (r : FetchResult) (s : Session) : Outcome :=
  if i < s.timers.length then
    refreshToken env now r { s with timers := s.timers.eraseIdx i }
  else (s, none)

/-- The mount effect (lines 12-27).  `if (token)` skips an absent cookie and
the empty string alike. -/
def init (env : Env) (now : Int) (s : Session) : Session :=
  let s1 :=
    match getCookie s with
    | none => s
    | some token =>
      if token = "" then s
      else
        (tryCatch
          (fun s0 =>
            match env.jwtDecode token with
            | .error msg => (s0, some msg)
            | .ok decoded =>
              let a := { s0 with isAuthenticated := true }
              let b := { a with user := decoded.user }
              let c := { b with roles := rolesOrEmpty decoded.roles }
              scheduleTokenRefresh env now token c)
          (fun _ s0 => (logout s0, none)) s).1
  { s1 with loading := false }

/-- Operations that move the session after mount. -/
inductive Op where
  | login (now : Int) (r : FetchResult)
  | logout
  | refresh (i : Nat) (now : Int) (r : FetchResult)
  deriving DecidableEq, Repr

/-- One operation run to completion. -/
def step (env : Env) (s : Session) : Op → Session
  | .login now r => (login env now r s).1
  | .logout => logout s
  | .refresh i now r => (fireTimer env i now r s).1

/-- Run a sequence of operations from a state. -/
def run (env : Env) (s : Session) (ops : List Op) : Session :=
  ops.foldl (step env) s

/-- States reachable through init, login, refresh and logout: mount with any
cookie jar, then any finite sequence of operations. -/
def Reachable (env : Env) (s : Session) : Prop :=
  ∃ (cookie : Option Token) (now : Int) (ops : List Op),
    s = run env (init env now (initialSession cookie)) ops

/-- Sample decoder: only the token `"T"` decodes, to alice / admin / `exp`. -/
def sampleDecode (exp : Int) : Token → Except String Claims :=
  fun t =>
    if t = "T" then
      .ok { user := some "alice", roles := some (.array [.str "admin"]), exp := some exp }
    else .error "Invalid token specified"

/-- Sample host: `sampleDecode` and an MFA hook that returns normally. -/
def sampleEnv (exp : Int) : Env :=
  { jwtDecode := sampleDecode exp, promptForMFA := some (.ok ()) }

/-- The store half of the session invariant: when the session is
authenticated, the cookie holds a token that decodes, its `user` is the
session's, and its roles, read through `decoded.roles || []`, are the
session's. -/
def Consistent (env : Env) (s : Session) : Prop :=
  s.isAuthenticated = true →
    ∃ (t : Token) (c : Claims), s.cookie = some t ∧ env.jwtDecode t = .ok c ∧
      c.user = s.user ∧ rolesOrEmpty c.roles = s.roles

/-- Sample decoder that accepts two tokens: `"anon"`, whose payload is
`{"user": null, "roles": [], "exp": 3600}`, and `"bare"`, whose payload is
`{"user": "bob", "exp": 3600}` with no `roles` field. -/
def anonDecode : Token → Except String Claims :=
  fun t =>
    if t = "anon" then .ok { user := none, roles := some (.array []), exp := some 3600 }
    else if t = "bare" then .ok { user := some "bob", roles := none, exp := some 3600 }
    else .error "Invalid token specified"

/-- Sample host around `anonDecode`. -/
def anonEnv : Env :=
  { jwtDecode := anonDecode, promptForMFA := some (.ok ()) }

/-- Sample state: mount with an empty cookie jar at time 0, then one completed
login whose token `"T"` expires at 3600 s. -/
def loggedInSession : Session :=
  run (sampleEnv 3600) (init (sampleEnv 3600) 0 (initialSession none))
    [.login 0 (.response true (.parsed "T" false))]

/-- Sample state: mount with an empty cookie jar, then two completed logins. -/
def twiceLoggedInSession : Session :=
  run (sampleEnv 3600) (init (sampleEnv 3600) 0 (initialSession none))
    [.login 0 (.response true (.parsed "T" false)),
     .login 1000 (.response true (.parsed "T" false))]

/-- Sample state: mount at time 0 with the token `"T"` in the cookie jar
(init-hydrate), then one completed login at time 1000. -/
def hydratedThenLoggedInSession : Session :=
  run (sampleEnv 3600) (init (sampleEnv 3600) 0 (initialSession (some "T")))
    [.login 1000 (.response true (.parsed "T" false))]

/-- Whether an operation is a `login` call. -/
def Op.isLogin : Op → Bool
  | .login _ _ => true
  | _ => false

/-- Sample decoder for loosely typed roles: the payload of `"S"` is
`{"user": "carol", "roles": "admin", "exp": 3600}` (a string, not an array)
and that of `"N"` is `{"user": "dave", "roles": 7, "exp": 3600}`. -/
def looseRolesDecode : Token → Except String Claims :=
  fun t =>
    if t = "S" then .ok { user := some "carol", roles := some (.text "admin"), exp := some 3600 }
    else if t = "N" then .ok { user := some "dave", roles := some .other, exp := some 3600 }
    else .error "Invalid token specified"

/-- Sample host around `looseRolesDecode`. -/
def looseRolesEnv : Env :=
  { jwtDecode := looseRolesDecode, promptForMFA := some (.ok ()) }

/-- Sample state: mount with an empty cookie jar, then a login whose request
fails in transport.  It is unauthenticated and carries an error. -/
def failedLoginSession : Session :=
  run (sampleEnv 3600) (init (sampleEnv 3600) 0 (initialSession none))
    [.login 0 (.rejected "Network down")]

/-- Sample host whose MFA hook is bound and throws. -/
def throwingHookEnv : Env :=
  { jwtDecode := sampleDecode 3600, promptForMFA := some (.error "MFA unavailable") }

/-- Sample host that leaves `promptForMFA` unbound, as the module itself does. -/
def unboundHookEnv : Env :=
  { jwtDecode := sampleDecode 3600, promptForMFA := none }

/-! ## Basic facts about the operations -/

theorem logout_timers (s : Session) : (logout s).timers = s.timers := rfl

theorem reachable_run (env : Env) (cookie : Option Token) (now : Int) (ops : List Op) :
    Reachable env (run env (init env now (initialSession cookie)) ops) :=
  ⟨cookie, now, ops, rfl⟩

/-! ## checkPermission -/

/-- C10 (amended): when the `roles` cell holds an array, `checkPermission(role)`
returns true if and only if the string `role` is an element of that array, and
false otherwise; it is a function of the state alone, produces no state, and
on an array it never throws.  With roles `["viewer"]`, `"admin"` gives false
and `"viewer"` gives true. -/
theorem checkPermission_array (s : Session) (role : String) (items : List RoleItem)
    (h : s.roles = .array items) :
    checkPermission s role = .ok (decide (RoleItem.str role ∈ items)) ∧
    (checkPermission s role = .ok true ↔ RoleItem.str role ∈ items) ∧
    (checkPermission s role = .ok false ↔ RoleItem.str role ∉ items) ∧
    checkPermission { s with roles := .array [.str "viewer"] } "admin" = .ok false ∧
    checkPermission { s with roles := .array [.str "viewer"] } "viewer" = .ok true := by
  have h1 : checkPermission s role = .ok (decide (RoleItem.str role ∈ items)) := by
    simp [checkPermission, h]
  refine ⟨h1, ?_, ?_, ?_, ?_⟩
  · rw [h1]; simp
  · rw [h1]; simp
  · simp [checkPermission]
  · simp [checkPermission]

/-- Witness for C10: the session of the spec scenario, roles `["viewer"]`. -/
theorem checkPermission_array_witness :
    checkPermission { initialSession none with roles := .array [.str "viewer"] } "viewer"
      = .ok true ∧
    checkPermission { initialSession none with roles := .array [.str "viewer"] } "admin"
      = .ok false :=
  ⟨((checkPermission_array { initialSession none with roles := .array [.str "viewer"] }
      "viewer" [.str "viewer"] rfl).2.1).mpr (by decide),
   ((checkPermission_array { initialSession none with roles := .array [.str "viewer"] }
      "admin" [.str "viewer"] rfl).2.2.1).mpr (by decide)⟩

/-- Counterexample to C10 as stated: the hook stores `decoded.roles` without
checking its kind.  Mounted with a token whose roles field is the string
`"admin"`, `checkPermission("adm")` and `checkPermission("")` return true
though neither is a role; mounted with a token whose roles field is the number
7, `checkPermission("admin")` throws. -/
theorem checkPermission_loose_roles_counterexample :
    Reachable looseRolesEnv (init looseRolesEnv 0 (initialSession (some "S"))) ∧
    (init looseRolesEnv 0 (initialSession (some "S"))).roles = .text "admin" ∧
    checkPermission (init looseRolesEnv 0 (initialSession (some "S"))) "adm" = .ok true ∧
    checkPermission (init looseRolesEnv 0 (initialSession (some "S"))) "" = .ok true ∧
    Reachable looseRolesEnv (init looseRolesEnv 0 (initialSession (some "N"))) ∧
    (init looseRolesEnv 0 (initialSession (some "N"))).isAuthenticated = true ∧
    checkPermission (init looseRolesEnv 0 (initialSession (some "N"))) "admin"
      = .error "roles.includes is not a function" :=
  ⟨⟨some "S", 0, [], rfl⟩, by decide, by rfl, by rfl, ⟨some "N", 0, [], rfl⟩, by decide,
   by rfl⟩

/-! ## scheduleTokenRefresh -/

/-- C6: for a token that decodes with expiry `exp` (seconds) at time `now`
(milliseconds), with `d = exp*1000 - now - 60000`: if `d > 0` the call appends
exactly one timer, of delay `d`, to the pending ones and changes nothing else
(in particular it does not log out) and throws nothing; if `d ≤ 0` it
registers no timer and its result is that of `logout`. -/
theorem scheduleTokenRefresh_spec (env : Env) (now exp : Int) (token : Token)
    (c : Claims) (s : Session)
    (hdec : env.jwtDecode token = .ok c) (hexp : c.exp = some exp) :
    (0 < exp * 1000 - now - 60000 →
      scheduleTokenRefresh env now token s =
        ({ s with timers := s.timers ++ [{ delay := exp * 1000 - now - 60000 }] }, none)) ∧
    (exp * 1000 - now - 60000 ≤ 0 →
      scheduleTokenRefresh env now token s = (logout s, none) ∧
      (scheduleTokenRefresh env now token s).1.timers = s.timers) := by
  constructor
  · intro hd
    simp [scheduleTokenRefresh, hdec, hexp, hd]
  · intro hd
    have hn : ¬ (0 < exp * 1000 - now - 60000) := not_lt.mpr hd
    simp [scheduleTokenRefresh, hdec, hexp, hn, logout_timers]

/-- Witness for C6: the sample token, expiring at 3600 s, scheduled at time 0
(one timer of 3 540 000 ms) and at time 3 590 000 ms (logout, no timer). -/
theorem scheduleTokenRefresh_spec_witness :
    scheduleTokenRefresh (sampleEnv 3600) 0 "T" loggedInSession =
        ({ loggedInSession with
            timers := loggedInSession.timers ++ [{ delay := 3600 * 1000 - 0 - 60000 }] }, none) ∧
    scheduleTokenRefresh (sampleEnv 3600) 3590000 "T" loggedInSession =
        (logout loggedInSession, none) :=
  ⟨(scheduleTokenRefresh_spec (sampleEnv 3600) 0 3600 "T"
      { user := some "alice", roles := some (.array [.str "admin"]), exp := some 3600 }
      loggedInSession rfl rfl).1 (by decide),
   ((scheduleTokenRefresh_spec (sampleEnv 3600) 3590000 3600 "T"
      { user := some "alice", roles := some (.array [.str "admin"]), exp := some 3600 }
      loggedInSession rfl rfl).2 (by decide)).1⟩

/-! ## login -/

/-- C2: when the login request fails, by a transport failure with message
`msg` or by a non-2xx response (message `"Login failed"`), `login` completes
with no exception leaving it, `error` is the failure message,
`isAuthenticated = false`, `user = null` and `loading = false`; nothing else
changes. -/
theorem login_request_failure (env : Env) (now : Int) (s : Session) :
    (∀ msg : String, login env now (.rejected msg) s =
      ({ s with error := some msg, isAuthenticated := false, user := none,
                loading := false }, none)) ∧
    (∀ body : JsonBody, login env now (.response false body) s =
      ({ s with error := some "Login failed", isAuthenticated := false, user := none,
                loading := false }, none)) := by
  constructor
  · intro msg
    simp [login, tryCatch, loginBody, loginCatch]
  · intro body
    simp [login, tryCatch, loginBody, loginCatch]

/-- C1 (amended): a login answered OK with `requiresMFA = false` and a token
`T` that decodes to user `u`, roles `r`, expiry `e` more than 60 s after `now`
ends, from any state (so from any unauthenticated one), with
`isAuthenticated = true`, `user = u`, `roles = r`, `loading = false`, `T`
persisted, one more timer pending, due at `e*1000 - 60000` ms, no exception,
and `error` left as it was before the call (null if it was null). -/
theorem login_success (env : Env) (now e : Int) (T : Token) (c : Claims)
    (u : UserIdentity) (r : List RoleItem) (s : Session)
    (hdec : env.jwtDecode T = .ok c) (hu : c.user = some u) (hr : c.roles = some (.array r))
    (he : c.exp = some e) (hfresh : now + 60000 < e * 1000) :
    login env now (.response true (.parsed T false)) s =
      ({ s with isAuthenticated := true, user := some u, roles := .array r, loading := false,
                cookie := some T,
                timers := s.timers ++ [{ delay := e * 1000 - now - 60000 }] }, none) ∧
    (login env now (.response true (.parsed T false)) s).1.error = s.error ∧
    (s.error = none → (login env now (.response true (.parsed T false)) s).1.error = none) ∧
    now + (e * 1000 - now - 60000) = e * 1000 - 60000 := by
  have hd : 0 < e * 1000 - now - 60000 := by omega
  have h : login env now (.response true (.parsed T false)) s =
      ({ s with isAuthenticated := true, user := some u, roles := .array r, loading := false,
                cookie := some T,
                timers := s.timers ++ [{ delay := e * 1000 - now - 60000 }] }, none) := by
    simp [login, tryCatch, loginBody, completeLogin, scheduleTokenRefresh, setCookie,
      rolesOrEmpty, hdec, hu, hr, he, hd]
  refine ⟨h, ?_, ?_, by ring⟩
  · rw [h]
  · intro hs
    rw [h]
    exact hs

/-- Witness for C1: the spec scenario, alice / admin expiring at 3600 s, login
at time 0 from the freshly mounted state. -/
theorem login_success_witness :
    login (sampleEnv 3600) 0 (.response true (.parsed "T" false))
        (init (sampleEnv 3600) 0 (initialSession none)) =
      ({ isAuthenticated := true, user := some "alice", roles := .array [.str "admin"],
         loading := false, error := none, cookie := some "T",
         timers := [{ delay := 3540000 }], mfaPrompts := 0 }, none) :=
  (login_success (sampleEnv 3600) 0 3600 "T"
    { user := some "alice", roles := some (.array [.str "admin"]), exp := some 3600 } "alice" [.str "admin"]
    (init (sampleEnv 3600) 0 (initialSession none)) rfl rfl rfl rfl (by decide)).1

/-- Counterexample to C1 as stated: after a failed login the session is
unauthenticated with `error = "Network down"`; a following successful login
authenticates it and leaves that error in place. -/
theorem login_success_error_counterexample :
    Reachable (sampleEnv 3600) failedLoginSession ∧
    failedLoginSession.isAuthenticated = false ∧
    (login (sampleEnv 3600) 0 (.response true (.parsed "T" false))
      failedLoginSession).1.isAuthenticated = true ∧
    (login (sampleEnv 3600) 0 (.response true (.parsed "T" false))
      failedLoginSession).1.error = some "Network down" :=
  ⟨reachable_run _ _ _ _, by decide, by decide, by decide⟩

/-- The MFA branch under a host whose hook is bound and returns normally:
`login` enters the hook exactly once, takes no failure transition (no
exception, `error` unchanged), leaves `isAuthenticated`, `user`, `roles`, the
persisted token and the pending timers as they were, and ends with
`loading = false`. -/
theorem login_mfa_of_hook_ok (env : Env) (now : Int) (token : Token) (s : Session)
    (hhook : env.promptForMFA = some (.ok ())) :
    login env now (.response true (.parsed token true)) s =
      ({ s with loading := false, mfaPrompts := s.mfaPrompts + 1 }, none) := by
  simp [login, tryCatch, loginBody, promptForMFA, hhook]

/-- C3, the code at the failing input: in the module as written the identifier
`promptForMFA` has no binding, so for every state and every backend answer OK
with `requiresMFA = true` the call on line 44 raises inside the `try`, the
`catch` of `login` runs, and the call ends with
`error = "promptForMFA is not defined"`, `isAuthenticated = false`,
`user = null`; no hook was entered.  The claim says that no error is recorded
and that the hook is invoked. -/
theorem login_mfa_unbound_hook (dec : Token → Except String Claims) (now : Int)
    (token : Token) (s : Session) :
    login { jwtDecode := dec, promptForMFA := none } now
        (.response true (.parsed token true)) s =
      ({ s with error := some "promptForMFA is not defined", isAuthenticated := false,
                user := none, loading := false }, none) ∧
    (login { jwtDecode := dec, promptForMFA := none } now
        (.response true (.parsed token true)) s).1.mfaPrompts = s.mfaPrompts := by
  constructor
  · simp [login, tryCatch, loginBody, promptForMFA, loginCatch]
  · simp [login, tryCatch, loginBody, promptForMFA, loginCatch]

/-- The MFA branch at sample hosts: with the hook unbound, and with a bound
hook that throws, the message lands in `error`; with a hook that returns, the
freshly mounted session only counts one prompt. -/
theorem login_mfa_samples :
    (login unboundHookEnv 0 (.response true (.parsed "T" true))
      (init unboundHookEnv 0 (initialSession none))).1.error
        = some "promptForMFA is not defined" ∧
    (login throwingHookEnv 0 (.response true (.parsed "T" true))
      (init throwingHookEnv 0 (initialSession none))).1.error
        = some "MFA unavailable" ∧
    login (sampleEnv 3600) 0 (.response true (.parsed "T" true))
        (init (sampleEnv 3600) 0 (initialSession none)) =
      ({ isAuthenticated := false, user := none, roles := .array [], loading := false,
         error := none, cookie := none, timers := [], mfaPrompts := 1 }, none) := by
  refine ⟨by decide, by decide, by decide⟩

/-- A token on which `jwtDecode` throws `msg`: met on the persisted token at
mount, or on the token returned by a refresh, it leads to `logout`; met on the
token returned by a login, it leads to the `catch` of `login`, which sets
`error = msg`, `isAuthenticated = false`, `user = null` and touches neither
`roles` nor the persisted token. -/
theorem decode_failure (env : Env) (now : Int) (token : Token) (msg : String)
    (s : Session) (hdec : env.jwtDecode token = .error msg) :
    (s.cookie = some token → token ≠ "" →
      init env now s = { logout s with loading := false }) ∧
    (∀ mfa : Bool, refreshToken env now (.response true (.parsed token mfa)) s =
      (logout s, none)) ∧
    login env now (.response true (.parsed token false)) s =
      ({ s with error := some msg, isAuthenticated := false, user := none,
                loading := false }, none) := by
  refine ⟨?_, ?_, ?_⟩
  · intro hc hne
    simp [init, getCookie, hc, hne, tryCatch, hdec]
  · intro mfa
    simp [refreshToken, tryCatch, refreshBody, completeLogin, hdec]
  · simp [login, tryCatch, loginBody, completeLogin, loginCatch, hdec]

/-- The token `"garbage"`, which the sample decoder rejects, met at mount and
at a refresh: both end in the logout state. -/
theorem decode_failure_samples :
    init (sampleEnv 3600) 0 (initialSession (some "garbage")) =
      { logout (initialSession (some "garbage")) with loading := false } ∧
    refreshToken (sampleEnv 3600) 0 (.response true (.parsed "garbage" false))
      loggedInSession = (logout loggedInSession, none) :=
  ⟨(decode_failure (sampleEnv 3600) 0 "garbage" "Invalid token specified"
      (initialSession (some "garbage")) rfl).1 rfl (by decide),
   (decode_failure (sampleEnv 3600) 0 "garbage" "Invalid token specified"
      loggedInSession rfl).2.1 false⟩

/-- C8, the code at the failing input: a session authenticated as alice
(roles `["admin"]`, token `"T"` persisted) receives a token that does not
decode.  Returned by a refresh, it ends in the logout state (roles empty, no
persisted token), as the claim says.  Returned by a login, it ends
unauthenticated with `user = null` and the decode error in `error`, but with
roles `["admin"]` still set and `"T"` still persisted: not the logout state
that the claim, and the handlers of `init` and `refreshToken`, give. -/
theorem login_decode_failure_keeps_session :
    Reachable (sampleEnv 3600) loggedInSession ∧
    sampleDecode 3600 "garbage" = .error "Invalid token specified" ∧
    (refreshToken (sampleEnv 3600) 0 (.response true (.parsed "garbage" false))
      loggedInSession).1.roles = .array [] ∧
    (refreshToken (sampleEnv 3600) 0 (.response true (.parsed "garbage" false))
      loggedInSession).1.cookie = none ∧
    (login (sampleEnv 3600) 0 (.response true (.parsed "garbage" false))
      loggedInSession).1.isAuthenticated = false ∧
    (login (sampleEnv 3600) 0 (.response true (.parsed "garbage" false))
      loggedInSession).1.user = none ∧
    (login (sampleEnv 3600) 0 (.response true (.parsed "garbage" false))
      loggedInSession).1.error = some "Invalid token specified" ∧
    (login (sampleEnv 3600) 0 (.response true (.parsed "garbage" false))
      loggedInSession).1.roles = .array [.str "admin"] ∧
    (login (sampleEnv 3600) 0 (.response true (.parsed "garbage" false))
      loggedInSession).1.cookie = some "T" :=
  ⟨reachable_run _ _ _ _, rfl, by decide, by decide, by decide, by decide, by decide,
   by decide, by decide⟩

/-! ## logout, refresh failure and the pending timers -/

/-- C5 (amended): `logout` twice leaves exactly the state `logout` once
leaves, and that state is unauthenticated (`isAuthenticated = false`,
`user = null`, roles empty) with no persisted token; the pending refresh
timers are left as they were, none is cancelled. -/
theorem logout_idempotent (s : Session) :
    logout (logout s) = logout s ∧
    (logout s).isAuthenticated = false ∧ (logout s).user = none ∧
    (logout s).roles = .array [] ∧ (logout s).cookie = none ∧
    (logout s).timers = s.timers :=
  ⟨rfl, rfl, rfl, rfl, rfl, rfl⟩

/-- Counterexample to C5 as stated: after one completed login a refresh is
pending; it is still pending after `logout`, and after a second `logout`. -/
theorem logout_pending_counterexample :
    Reachable (sampleEnv 3600) loggedInSession ∧
    (logout loggedInSession).timers = [{ delay := 3540000 }] ∧
    (logout (logout loggedInSession)).timers = [{ delay := 3540000 }] :=
  ⟨reachable_run _ _ _ _, by decide, by decide⟩

/-- C4 (amended): when a pending refresh timer fires and the refresh request
fails (transport failure or non-2xx response), `refreshToken` ends, without an
exception, with `isAuthenticated = false`, `user = null`, roles empty and the
persisted token deleted; it registers no new timer, the fired timer is gone and
every other timer pending before is still pending (none remains only if the
fired one was the only one). -/
theorem refresh_failure (env : Env) (i : Nat) (now : Int) (r : FetchResult)
    (s : Session) (hi : i < s.timers.length)
    (hr : (∃ msg, r = .rejected msg) ∨ (∃ body, r = .response false body)) :
    fireTimer env i now r s =
      (logout { s with timers := s.timers.eraseIdx i }, none) ∧
    (fireTimer env i now r s).1.isAuthenticated = false ∧
    (fireTimer env i now r s).1.user = none ∧
    (fireTimer env i now r s).1.roles = .array [] ∧
    (fireTimer env i now r s).1.cookie = none ∧
    (fireTimer env i now r s).1.timers = s.timers.eraseIdx i ∧
    (s.timers.length = 1 → (fireTimer env i now r s).1.timers = []) := by
  have h : fireTimer env i now r s =
      (logout { s with timers := s.timers.eraseIdx i }, none) := by
    rcases hr with ⟨msg, rfl⟩ | ⟨body, rfl⟩
    · simp [fireTimer, hi, refreshToken, tryCatch, refreshBody]
    · simp [fireTimer, hi, refreshToken, tryCatch, refreshBody]
  refine ⟨h, ?_, ?_, ?_, ?_, ?_, ?_⟩
  · rw [h]; rfl
  · rw [h]; rfl
  · rw [h]; rfl
  · rw [h]; rfl
  · rw [h]; rfl
  · intro h1
    rw [h]
    show s.timers.eraseIdx i = []
    apply List.eq_nil_of_length_eq_zero
    rw [List.length_eraseIdx, if_pos hi, h1]

/-- Witness for C4: the only pending timer of the logged-in sample session
fires and the backend answers with a non-2xx status. -/
theorem refresh_failure_witness :
    fireTimer (sampleEnv 3600) 0 3540000 (.response false (.malformed "")) loggedInSession =
      ({ isAuthenticated := false, user := none, roles := .array [], loading := false,
         error := none, cookie := none, timers := [], mfaPrompts := 0 }, none) :=
  (refresh_failure (sampleEnv 3600) 0 3540000 (.response false (.malformed ""))
    loggedInSession (by decide) (Or.inr ⟨_, rfl⟩)).1

/-- Counterexample to C4 as stated: after two completed logins two timers are
pending; the first fires, the refresh is refused, and the session is logged
out with the second timer still pending. -/
theorem refresh_failure_pending_counterexample :
    Reachable (sampleEnv 3600) twiceLoggedInSession ∧
    twiceLoggedInSession.isAuthenticated = true ∧
    (fireTimer (sampleEnv 3600) 0 3540000 (.response false (.malformed ""))
      twiceLoggedInSession).1.isAuthenticated = false ∧
    (fireTimer (sampleEnv 3600) 0 3540000 (.response false (.malformed ""))
      twiceLoggedInSession).1.timers = [{ delay := 3539000 }] :=
  ⟨reachable_run _ _ _ _, by decide, by decide, by decide⟩

/-! ## Timers are never cancelled -/

/-- Timers after `scheduleTokenRefresh`: the old ones, then at most one new. -/
theorem scheduleTokenRefresh_timers (env : Env) (now : Int) (token : Token) (s : Session) :
    ∃ added : List Timer,
      (scheduleTokenRefresh env now token s).1.timers = s.timers ++ added ∧
      added.length ≤ 1 := by
  cases hd : env.jwtDecode token with
  | error msg => exact ⟨[], by simp [scheduleTokenRefresh, hd]⟩
  | ok c =>
    cases he : c.exp with
    | none => exact ⟨[], by simp [scheduleTokenRefresh, hd, he, logout_timers]⟩
    | some exp =>
      by_cases hpos : 0 < exp * 1000 - now - 60000
      · exact ⟨[{ delay := exp * 1000 - now - 60000 }],
          by simp [scheduleTokenRefresh, hd, he, hpos], by simp⟩
      · exact ⟨[], by simp [scheduleTokenRefresh, hd, he, hpos, logout_timers], by simp⟩

/-- Timers after `completeLogin`: the old ones, then at most one new. -/
theorem completeLogin_timers (env : Env) (now : Int) (token : Token) (s : Session) :
    ∃ added : List Timer,
      (completeLogin env now token s).1.timers = s.timers ++ added ∧
      added.length ≤ 1 := by
  unfold completeLogin
  cases hd : env.jwtDecode token with
  | error msg => exact ⟨[], by simp⟩
  | ok c => exact scheduleTokenRefresh_timers env now token _

/-- A guarded block whose body keeps the timers of `base` and adds at most
one, and whose handler leaves the timers alone, does the same. -/
theorem tryCatch_timers (body : Session → Outcome)
    (handler : String → Session → Outcome) (s : Session) (base : List Timer)
    (hbody : ∃ added : List Timer, (body s).1.timers = base ++ added ∧ added.length ≤ 1)
    (hhandler : ∀ msg s1, (handler msg s1).1.timers = s1.timers) :
    ∃ added : List Timer,
      (tryCatch body handler s).1.timers = base ++ added ∧ added.length ≤ 1 := by
  unfold tryCatch
  rcases hb : body s with ⟨s1, _ | msg⟩
  · rw [hb] at hbody
    exact hbody
  · rw [hb] at hbody
    obtain ⟨added, h1, h2⟩ := hbody
    exact ⟨added, by rw [hhandler]; exact h1, h2⟩

/-- Timers after `login`: the old ones, then at most one new. -/
theorem login_timers (env : Env) (now : Int) (r : FetchResult) (s : Session) :
    ∃ added : List Timer,
      (login env now r s).1.timers = s.timers ++ added ∧ added.length ≤ 1 := by
  have body : ∃ added : List Timer,
      (loginBody env now r { s with loading := true }).1.timers = s.timers ++ added ∧
      added.length ≤ 1 := by
    unfold loginBody
    cases r with
    | rejected msg => exact ⟨[], by simp⟩
    | response ok body =>
      cases ok with
      | false => exact ⟨[], by simp⟩
      | true =>
        cases body with
        | malformed msg => exact ⟨[], by simp⟩
        | parsed token mfa =>
          cases mfa with
          | true =>
            refine ⟨[], ?_, by simp⟩
            simp only [promptForMFA]
            rcases env.promptForMFA with _ | (_ | _) <;> simp
          | false => exact completeLogin_timers env now token _
  exact tryCatch_timers (loginBody env now r) loginCatch _ s.timers body (fun _ _ => rfl)

/-- Timers after `refreshToken`, whatever the backend answers: the old ones,
then at most one new. -/
theorem refreshToken_timers (env : Env) (now : Int) (r : FetchResult) (s : Session) :
    ∃ added : List Timer,
      (refreshToken env now r s).1.timers = s.timers ++ added ∧ added.length ≤ 1 := by
  apply tryCatch_timers _ _ s s.timers _ (fun _ _ => rfl)
  unfold refreshBody
  cases r with
  | rejected msg => exact ⟨[], by simp⟩
  | response ok body =>
    cases ok with
    | false => exact ⟨[], by simp⟩
    | true =>
      cases body with
      | malformed msg => exact ⟨[], by simp⟩
      | parsed token mfa => exact completeLogin_timers env now token s

/-- Timers after a timer fires, whatever the backend answers: the old ones
without the fired one, then at most one new. -/
theorem fireTimer_timers (env : Env) (i : Nat) (now : Int) (r : FetchResult) (s : Session) :
    ∃ added : List Timer,
      (fireTimer env i now r s).1.timers = s.timers.eraseIdx i ++ added ∧
      added.length ≤ 1 := by
  unfold fireTimer
  by_cases hi : i < s.timers.length
  · rw [if_pos hi]
    exact refreshToken_timers env now r { s with timers := s.timers.eraseIdx i }
  · rw [if_neg hi]
    exact ⟨[], by simp [List.eraseIdx_of_length_le (not_lt.mp hi)], by simp⟩

/-- Timers after the mount effect: the old ones, then at most one new. -/
theorem init_timers (env : Env) (now : Int) (s : Session) :
    ∃ added : List Timer,
      (init env now s).timers = s.timers ++ added ∧ added.length ≤ 1 := by
  unfold init
  cases hc : getCookie s with
  | none => exact ⟨[], by simp⟩
  | some token =>
    by_cases hne : token = ""
    · exact ⟨[], by simp [hne]⟩
    · simp only [hne, if_false]
      apply tryCatch_timers _ _ s s.timers _ (fun _ _ => rfl)
      cases hd : env.jwtDecode token with
      | error msg => exact ⟨[], by simp⟩
      | ok c => exact scheduleTokenRefresh_timers env now token _

/-- One operation adds at most one pending timer, and only a `login` can make
the pending timers more numerous. -/
theorem step_timers_length (env : Env) (s : Session) (op : Op) :
    (step env s op).timers.length ≤ s.timers.length + (if op.isLogin then 1 else 0) := by
  cases op with
  | login now r =>
    obtain ⟨added, h1, h2⟩ := login_timers env now r s
    simp only [step, Op.isLogin, if_true, h1, List.length_append]
    omega
  | logout => simp [step, Op.isLogin, logout_timers]
  | refresh i now r =>
    by_cases hi : i < s.timers.length
    · obtain ⟨added, h1, h2⟩ := fireTimer_timers env i now r s
      simp only [step, Op.isLogin, h1, List.length_append,
        List.length_eraseIdx_of_lt hi]
      simp only [Bool.false_eq_true, if_false]
      omega
    · simp [step, Op.isLogin, fireTimer, hi]

/-- After a run, the pending timers number at most those at the start plus
the `login` calls made. -/
theorem run_timers_length (env : Env) (ops : List Op) :
    ∀ s : Session,
      (run env s ops).timers.length ≤ s.timers.length + ops.countP Op.isLogin := by
  induction ops with
  | nil => intro s; simp [run]
  | cons op rest ih =>
    intro s
    have h1 := step_timers_length env s op
    have h2 := ih (step env s op)
    have h3 : run env s (op :: rest) = run env (step env s op) rest := rfl
    rw [h3, List.countP_cons]
    omega

/-- C7 (amended): no operation cancels a refresh timer.  `scheduleTokenRefresh`,
`completeLogin`, `login`, `refreshToken` (whatever the backend answers) and the
mount effect each leave all previously pending timers pending, in order, and
register at most one new one; `logout` leaves the pending timers untouched; a
timer leaves the pending set only by firing, which removes that timer alone.
Hence after mount and any sequence of operations the pending timers number at
most one plus the `login` calls made (at most one when no `login` is made),
and not at most one in general. -/
theorem scheduleTokenRefresh_cancels_nothing (env : Env) (now : Int) (token : Token)
    (r : FetchResult) (i : Nat) (s : Session) (cookie : Option Token) (ops : List Op) :
    (∃ added : List Timer,
      (scheduleTokenRefresh env now token s).1.timers = s.timers ++ added ∧
      added.length ≤ 1) ∧
    (∃ added : List Timer,
      (completeLogin env now token s).1.timers = s.timers ++ added ∧
      added.length ≤ 1) ∧
    (∃ added : List Timer,
      (login env now r s).1.timers = s.timers ++ added ∧ added.length ≤ 1) ∧
    (∃ added : List Timer,
      (refreshToken env now r s).1.timers = s.timers ++ added ∧ added.length ≤ 1) ∧
    (∃ added : List Timer,
      (init env now s).timers = s.timers ++ added ∧ added.length ≤ 1) ∧
    (logout s).timers = s.timers ∧
    (∃ added : List Timer,
      (fireTimer env i now r s).1.timers = s.timers.eraseIdx i ++ added ∧
      added.length ≤ 1) ∧
    (run env (init env now (initialSession cookie)) ops).timers.length
      ≤ 1 + ops.countP Op.isLogin := by
  refine ⟨scheduleTokenRefresh_timers env now token s, completeLogin_timers env now token s,
    login_timers env now r s, refreshToken_timers env now r s, init_timers env now s, rfl,
    fireTimer_timers env i now r s, ?_⟩
  obtain ⟨added, h1, h2⟩ := init_timers env now (initialSession cookie)
  have h3 := run_timers_length env ops (init env now (initialSession cookie))
  have h4 : (initialSession cookie).timers = [] := rfl
  rw [h1, h4, List.nil_append] at h3
  omega

/-- Counterexample to C7 as stated: mount with an empty cookie jar, then two
successive completed logins; two refresh timers are pending, the one
registered by the first login was not cancelled by the second.  Likewise
mount with a valid persisted token (init-hydrate), then one completed login:
the timer of the mount and the timer of the login are both pending. -/
theorem two_logins_two_timers_counterexample :
    Reachable (sampleEnv 3600) twiceLoggedInSession ∧
    twiceLoggedInSession.timers = [{ delay := 3540000 }, { delay := 3539000 }] ∧
    ¬ (twiceLoggedInSession.timers.length ≤ 1) ∧
    Reachable (sampleEnv 3600) hydratedThenLoggedInSession ∧
    hydratedThenLoggedInSession.timers = [{ delay := 3540000 }, { delay := 3539000 }] :=
  ⟨reachable_run _ _ _ _, by decide, by decide, reachable_run _ _ _ _, by decide⟩

/-! ## The session invariant -/

theorem consistent_of_unauthenticated (env : Env) (s : Session)
    (h : s.isAuthenticated = false) : Consistent env s := by
  intro ha
  rw [h] at ha
  exact absurd ha (by decide)

/-- The invariant reads only `isAuthenticated`, `user`, `roles` and the cookie. -/
theorem consistent_congr (env : Env) (s s1 : Session)
    (ha : s1.isAuthenticated = s.isAuthenticated) (hu : s1.user = s.user)
    (hr : s1.roles = s.roles) (hc : s1.cookie = s.cookie)
    (h : Consistent env s) : Consistent env s1 := by
  intro h1
  rw [ha] at h1
  obtain ⟨t, c, h2, h3, h4, h5⟩ := h h1
  exact ⟨t, c, by rw [hc]; exact h2, h3, by rw [hu]; exact h4, by rw [hr]; exact h5⟩

theorem logout_consistent (env : Env) (s : Session) : Consistent env (logout s) :=
  consistent_of_unauthenticated env _ rfl

theorem scheduleTokenRefresh_consistent (env : Env) (now : Int) (token : Token)
    (s : Session) (h : Consistent env s) :
    Consistent env (scheduleTokenRefresh env now token s).1 := by
  cases hd : env.jwtDecode token with
  | error msg => simpa [scheduleTokenRefresh, hd] using h
  | ok c =>
    cases he : c.exp with
    | none =>
      simp only [scheduleTokenRefresh, hd, he]
      exact logout_consistent env s
    | some exp =>
      by_cases hpos : exp * 1000 - now - 60000 > 0
      · simp only [scheduleTokenRefresh, hd, he, hpos, if_true]
        exact consistent_congr env s _ rfl rfl rfl rfl h
      · simp only [scheduleTokenRefresh, hd, he, hpos, if_false]
        exact logout_consistent env s

theorem completeLogin_consistent (env : Env) (now : Int) (token : Token) (s : Session)
    (h : Consistent env s) : Consistent env (completeLogin env now token s).1 := by
  cases hd : env.jwtDecode token with
  | error msg => simpa [completeLogin, hd] using h
  | ok c =>
    simp only [completeLogin, hd]
    apply scheduleTokenRefresh_consistent
    intro _
    exact ⟨token, c, rfl, hd, rfl, rfl⟩

/-- A guarded block keeps the invariant when its normal exit does and its
handler restores it. -/
theorem tryCatch_consistent (env : Env) (body : Session → Outcome)
    (handler : String → Session → Outcome) (s : Session)
    (hbody : (body s).2 = none → Consistent env (body s).1)
    (hhandler : ∀ msg s1, Consistent env (handler msg s1).1) :
    Consistent env (tryCatch body handler s).1 := by
  unfold tryCatch
  rcases hb : body s with ⟨s1, _ | msg⟩
  · rw [hb] at hbody
    exact hbody rfl
  · exact hhandler msg s1

theorem promptForMFA_consistent (env : Env) (s : Session) (h : Consistent env s) :
    Consistent env (promptForMFA env s).1 := by
  unfold promptForMFA
  rcases env.promptForMFA with _ | (_ | _)
  · exact h
  · exact consistent_congr env s _ rfl rfl rfl rfl h
  · exact consistent_congr env s _ rfl rfl rfl rfl h

theorem loginBody_consistent (env : Env) (now : Int) (r : FetchResult) (s : Session)
    (h : Consistent env s) : Consistent env (loginBody env now r s).1 := by
  unfold loginBody
  cases r with
  | rejected msg => exact h
  | response ok body =>
    cases ok with
    | false => exact h
    | true =>
      cases body with
      | malformed msg => exact h
      | parsed token mfa =>
        cases mfa with
        | true => exact promptForMFA_consistent env s h
        | false => exact completeLogin_consistent env now token s h

theorem login_consistent (env : Env) (now : Int) (r : FetchResult) (s : Session)
    (h : Consistent env s) : Consistent env (login env now r s).1 := by
  unfold login
  apply consistent_congr env
    (tryCatch (loginBody env now r) loginCatch { s with loading := true }).1 _ rfl rfl rfl rfl
  apply tryCatch_consistent
  · intro _
    exact loginBody_consistent env now r _
      (consistent_congr env s _ rfl rfl rfl rfl h)
  · intro msg s1
    exact consistent_of_unauthenticated env _ rfl

theorem refreshToken_consistent (env : Env) (now : Int) (r : FetchResult) (s : Session)
    (h : Consistent env s) : Consistent env (refreshToken env now r s).1 := by
  unfold refreshToken
  apply tryCatch_consistent
  · intro _
    unfold refreshBody
    cases r with
    | rejected msg => exact h
    | response ok body =>
      cases ok with
      | false => exact h
      | true =>
        cases body with
        | malformed msg => exact h
        | parsed token mfa => exact completeLogin_consistent env now token s h
  · intro msg s1
    exact logout_consistent env s1

theorem fireTimer_consistent (env : Env) (i : Nat) (now : Int) (r : FetchResult)
    (s : Session) (h : Consistent env s) :
    Consistent env (fireTimer env i now r s).1 := by
  unfold fireTimer
  split
  · exact refreshToken_consistent env now r _
      (consistent_congr env s _ rfl rfl rfl rfl h)
  · exact h

theorem init_consistent (env : Env) (now : Int) (s : Session) (h : Consistent env s) :
    Consistent env (init env now s) := by
  unfold init
  apply consistent_congr env _ _ rfl rfl rfl rfl
  cases hc : getCookie s with
  | none => exact h
  | some token =>
    by_cases hne : token = ""
    · simpa [hne] using h
    · simp only [hne, if_false]
      apply tryCatch_consistent
      · intro _
        cases hd : env.jwtDecode token with
        | error msg => exact h
        | ok c =>
          apply scheduleTokenRefresh_consistent
          intro _
          exact ⟨token, c, hc, hd, rfl, rfl⟩
      · intro msg s1
        exact logout_consistent env s1

theorem step_consistent (env : Env) (s : Session) (op : Op) (h : Consistent env s) :
    Consistent env (step env s op) := by
  cases op with
  | login now r => exact login_consistent env now r s h
  | logout => exact logout_consistent env s
  | refresh i now r => exact fireTimer_consistent env i now r s h

theorem run_consistent (env : Env) (ops : List Op) :
    ∀ s : Session, Consistent env s → Consistent env (run env s ops) := by
  induction ops with
  | nil => intro s h; exact h
  | cons op rest ih =>
    intro s h
    exact ih (step env s op) (step_consistent env s op h)

/-- C9 (amended): in every state reachable through init, login, refresh and
logout, for any backend responses and any tokens the decoder accepts,
`isAuthenticated = true` implies that the store holds a token that decodes,
whose decoded user equals the session's user and whose decoded roles, read
through `decoded.roles || []`, equal the session's roles (exactly the decoded
array when the roles claim is an array); and `user` is not null whenever the
user claim of that token is not null. -/
theorem reachable_consistent (env : Env) (s : Session) (h : Reachable env s)
    (ha : s.isAuthenticated = true) :
    ∃ (t : Token) (c : Claims), s.cookie = some t ∧ env.jwtDecode t = .ok c ∧
      c.user = s.user ∧ rolesOrEmpty c.roles = s.roles ∧
      (∀ items, c.roles = some (.array items) → s.roles = .array items) ∧
      (c.user ≠ none → s.user ≠ none) := by
  obtain ⟨cookie, now, ops, rfl⟩ := h
  have hinv := run_consistent env ops _
    (init_consistent env now _ (consistent_of_unauthenticated env (initialSession cookie) rfl))
  obtain ⟨t, c, h1, h2, h3, h4⟩ := hinv ha
  refine ⟨t, c, h1, h2, h3, h4, ?_, ?_⟩
  · intro items hi
    rw [← h4, hi]
    rfl
  · intro hu
    rw [← h3]
    exact hu

/-- Witness for C9: the sample session after one completed login is reachable
and authenticated; the persisted token `"T"` decodes to its user and roles. -/
theorem reachable_consistent_witness :
    loggedInSession.isAuthenticated = true ∧
    ∃ (t : Token) (c : Claims), loggedInSession.cookie = some t ∧
      (sampleEnv 3600).jwtDecode t = .ok c ∧
      c.user = loggedInSession.user ∧ rolesOrEmpty c.roles = loggedInSession.roles ∧
      (∀ items, c.roles = some (.array items) → loggedInSession.roles = .array items) ∧
      (c.user ≠ none → loggedInSession.user ≠ none) :=
  ⟨by decide,
   reachable_consistent (sampleEnv 3600) loggedInSession (reachable_run _ _ _ _)
     (by decide)⟩

/-- Counterexample to C9 as stated: the decoder accepts the token `"anon"`,
whose payload carries `user: null`; mounting at time 0 with that token in the
cookie jar gives `isAuthenticated = true` with `user = null`.  It also accepts
the token `"bare"`, whose payload has no `roles` field; mounting with it
gives an authenticated session whose roles are the empty array, while the
decoded token has no roles at all. -/
theorem anonymous_token_counterexample :
    anonDecode "anon" = .ok { user := none, roles := some (.array []), exp := some 3600 } ∧
    Reachable anonEnv (init anonEnv 0 (initialSession (some "anon"))) ∧
    (init anonEnv 0 (initialSession (some "anon"))).isAuthenticated = true ∧
    (init anonEnv 0 (initialSession (some "anon"))).user = none ∧
    anonDecode "bare" = .ok { user := some "bob", roles := none, exp := some 3600 } ∧
    Reachable anonEnv (init anonEnv 0 (initialSession (some "bare"))) ∧
    (init anonEnv 0 (initialSession (some "bare"))).isAuthenticated = true ∧
    (init anonEnv 0 (initialSession (some "bare"))).cookie = some "bare" ∧
    (init anonEnv 0 (initialSession (some "bare"))).roles = .array [] :=
  ⟨rfl, ⟨some "anon", 0, [], rfl⟩, by decide, by decide, rfl,
   ⟨some "bare", 0, [], rfl⟩, by decide, by decide, by decide⟩

end UseAuth
